import Mathlib

/-!
Verification development for the read-only JSON-RPC query surface
(`crates/sui-json-rpc/src/read_api.rs`).

The file shallowly embeds the data model and operations of `read_api.rs`:
pagination of dynamic-field and transaction listings, Move package
introspection and argument classification, checkpoint lookup, and the
transaction codec (base64 decode, BCS deserialize, intent wrapping, digest).
Structures and functions keep the source's names where Lean allows it.
Parts of the repository that `read_api.rs` calls but that are outside the
provided sources (the authority store, `move_core_types` identifiers,
`sui_types` intents and hashing, the base64/BCS codecs) are modelled from
the specification, as marked in their doc comments.
-/

/-! ## Pagination (get_dynamic_fields, get_transactions) -/

/-- Modelled from the spec: `cap_page_limit` lives in `crate::api`, outside the
provided sources.  The spec says the limit is clamped into `[1, MAX_PAGE_SIZE]`
and an absent limit defaults to a fixed page size. -/
def QUERY_MAX_RESULT_LIMIT : Nat := 1000

/-- Modelled from the spec: clamp an optional page limit into `[1, MAX_PAGE_SIZE]`,
defaulting when absent. -/
def cap_page_limit : Option Nat → Nat
  | none => QUERY_MAX_RESULT_LIMIT
  | some k => min (max k 1) QUERY_MAX_RESULT_LIMIT

/-- Modelled from the spec: the store's listing primitive returns items of an
ordered source starting strictly after the cursor (the cursor is exclusive);
with no cursor it starts at the beginning. -/
def itemsAfter {α : Type} (key : α → Nat) (source : List α) (cursor : Option Nat) : List α :=
  match cursor with
  | none => source
  | some c => (source.dropWhile (fun i => key i != c)).drop 1

/-- Modelled from the spec: fetch up to `n` items strictly after the cursor. -/
def fetchPage {α : Type} (key : α → Nat) (source : List α) (cursor : Option Nat) (n : Nat) :
    List α :=
  (itemsAfter key source cursor).take n

/-- A dynamic field entry; only the fields the pagination logic touches are kept. -/
structure DynamicFieldInfo where
  name : String
  object_id : Nat
deriving DecidableEq, Repr

structure DynamicFieldPage where
  data : List DynamicFieldInfo
  next_cursor : Option Nat
deriving DecidableEq, Repr

/-- Modelled from the spec: `AuthorityState::get_dynamic_fields`, the underlying
listing primitive of the store. -/
def state_get_dynamic_fields (source : List DynamicFieldInfo) (cursor : Option Nat)
    (limit : Nat) : List DynamicFieldInfo :=
  fetchPage (fun i => i.object_id) source cursor limit

/-- Embeds `ReadApi::get_dynamic_fields`: cap the limit, fetch `limit + 1` items,
take the id of the item at index `limit` as the next cursor, truncate to `limit`. -/
def get_dynamic_fields (source : List DynamicFieldInfo) (cursor : Option Nat)
    (limit : Option Nat) : DynamicFieldPage :=
  let k := cap_page_limit limit
  let data := state_get_dynamic_fields source cursor (k + 1)
  let next_cursor := (data[k]?).map (fun i => i.object_id)
  ⟨data.take k, next_cursor⟩

/-- Transaction digests are modelled as naturals. -/
structure TransactionsPage where
  data : List Nat
  next_cursor : Option Nat
deriving DecidableEq, Repr

/-- Modelled from the spec: `AuthorityState::get_transactions`, the underlying
ordered source (ascending by default, reversed when the descending flag is set),
fetched strictly after the cursor. -/
def state_get_transactions (txs : List Nat) (cursor : Option Nat) (limit : Nat)
    (descending : Bool) : List Nat :=
  fetchPage (fun d => d) (if descending then txs.reverse else txs) cursor limit

/-- Embeds `ReadApi::get_transactions`: cap the limit, default the descending flag
to false, fetch `limit + 1` items, the item at index `limit` becomes the next
cursor, truncate to `limit`. -/
def get_transactions (txs : List Nat) (cursor : Option Nat) (limit : Option Nat)
    (descending_order : Option Bool) : TransactionsPage :=
  let k := cap_page_limit limit
  let descending := descending_order.getD false
  let data := state_get_transactions txs cursor (k + 1) descending
  let next_cursor := data[k]?
  ⟨data.take k, next_cursor⟩

/-! ## Move package introspection -/

/-- Embeds `move_binary_format::normalized::Type` (named `MoveType` since `Type`
is reserved in Lean). -/
inductive MoveType where
  | bool
  | u8
  | u64
  | u128
  | address
  | signer
  | struct_ (address : Nat) (module : String) (name : String) (type_arguments : List MoveType)
  | vector (inner : MoveType)
  | typeParameter (idx : Nat)
  | reference (inner : MoveType)
  | mutableReference (inner : MoveType)

inductive ObjectValueKind where
  | byValue
  | byImmutableReference
  | byMutableReference
deriving DecidableEq, Repr

inductive MoveFunctionArgType where
  | pure
  | object (kind : ObjectValueKind)
deriving DecidableEq, Repr

/-- The parameter classification match of `get_move_function_arg_types`:
`Struct` is an object taken by value, `Reference` by immutable reference,
`MutableReference` by mutable reference, everything else is a pure value. -/
def classifyArg : MoveType → MoveFunctionArgType
  | .struct_ _ _ _ _ => .object .byValue
  | .reference _ => .object .byImmutableReference
  | .mutableReference _ => .object .byMutableReference
  | _ => .pure

/-- Whether a normalized type is one of the three object-argument shapes. -/
def isObjectParam : MoveType → Bool
  | .struct_ _ _ _ _ => true
  | .reference _ => true
  | .mutableReference _ => true
  | _ => false

structure NormalizedStruct where
  fields : List (String × MoveType)

structure NormalizedFunction where
  parameters : List MoveType

structure NormalizedModule where
  structs : List (String × NormalizedStruct)
  exposed_functions : List (String × NormalizedFunction)

/-- Lookup in an association list keyed by strings (embedding the `BTreeMap`
lookups of the source). -/
def alistLookup {α : Type} : List (String × α) → String → Option α
  | [], _ => none
  | (k, v) :: rest, s => if k = s then some v else alistLookup rest s

/-- Modelled from the spec: `normalize_modules` (from `sui_types::move_package`)
turns raw package bytecode into normalized modules; packages are modelled as
already holding their normalized module map, and normalization as reading it. -/
inductive Data where
  | package (modules : List (String × NormalizedModule))
  | moveObject (contents : List Nat)

structure Object where
  data : Data

/-- Embeds `sui_types::object::ObjectRead`: an object exists, never existed,
or was deleted. -/
inductive ObjectRead where
  | exists_ (obj : Object)
  | notExists
  | deleted

/-- Error values of the introspection endpoints; one constructor per distinct
error message produced in the source. -/
inductive Err where
  | packageNotFound (id : Nat)
  | notAPackage (id : Nat)
  | moduleNotFound (name : String)
  | invalidIdentifier (name : String)
  | structNotFound (name : String)
  | functionNotFound (name : String)
  | noParametersFound (name : String)
deriving DecidableEq, Repr

/-- Modelled from the spec: `Identifier::new` of `move_core_types` is outside
the provided sources; the spec requires a syntactically legal identifier (a
letter or underscore followed by letters, digits or underscores, and not the
bare underscore). -/
def isValidIdentifier (s : String) : Bool :=
  match s.toList with
  | [] => false
  | c :: rest =>
    (c.isAlpha || c == '_') && rest.all (fun d => d.isAlphanum || d == '_') && !(s == "_")

/-- Embeds the shared body of `get_move_modules_by_package` (also duplicated
inline in `get_move_function_arg_types`): resolve the package object, demand
that it is a package, and normalize its modules. -/
def packageModules (st : Nat → ObjectRead) (package : Nat) :
    Except Err (List (String × NormalizedModule)) :=
  match st package with
  | .exists_ obj =>
    match obj.data with
    | .package p => .ok p
    | _ => .error (.notAPackage package)
  | _ => .error (.packageNotFound package)

/-- Embeds `get_move_module`: resolve the package's modules, then the named module. -/
def get_move_module (st : Nat → ObjectRead) (package : Nat) (module_name : String) :
    Except Err NormalizedModule :=
  match packageModules st package with
  | .error e => .error e
  | .ok normalized =>
    match alistLookup normalized module_name with
    | some m => .ok m
    | none => .error (.moduleNotFound module_name)

/-- Embeds `ReadApi::get_normalized_move_struct`: resolve the module, validate the
struct name as an identifier, then look it up. -/
def get_normalized_move_struct (st : Nat → ObjectRead) (package : Nat)
    (module_name struct_name : String) : Except Err NormalizedStruct :=
  match get_move_module st package module_name with
  | .error e => .error e
  | .ok m =>
    if isValidIdentifier struct_name then
      match alistLookup m.structs struct_name with
      | some s => .ok s
      | none => .error (.structNotFound struct_name)
    else .error (.invalidIdentifier struct_name)

/-- Embeds `ReadApi::get_normalized_move_function`: resolve the module, validate
the function name as an identifier, then look it up. -/
def get_normalized_move_function (st : Nat → ObjectRead) (package : Nat)
    (module_name function_name : String) : Except Err NormalizedFunction :=
  match get_move_module st package module_name with
  | .error e => .error e
  | .ok m =>
    if isValidIdentifier function_name then
      match alistLookup m.exposed_functions function_name with
      | some f => .ok f
      | none => .error (.functionNotFound function_name)
    else .error (.invalidIdentifier function_name)

/-- The parameter-resolution chain of `get_move_function_arg_types`:
`normalized.get(&module).and_then(|m| m.exposed_functions.get(&identifier).map(|f| f.parameters))`. -/
def functionParameters (st : Nat → ObjectRead) (package : Nat)
    (module_name function_name : String) : Option (List MoveType) :=
  match packageModules st package with
  | .error _ => none
  | .ok normalized =>
    (alistLookup normalized module_name).bind fun m =>
      (alistLookup m.exposed_functions function_name).map fun f => f.parameters

/-- Embeds `ReadApi::get_move_function_arg_types`: resolve the package, validate
the function name, resolve the parameter list (a missing module and a missing
function both collapse to `none`), and classify each parameter in order. -/
def get_move_function_arg_types (st : Nat → ObjectRead) (package : Nat)
    (module_name function_name : String) : Except Err (List MoveFunctionArgType) :=
  match packageModules st package with
  | .error e => .error e
  | .ok normalized =>
    if isValidIdentifier function_name then
      match (alistLookup normalized module_name).bind (fun m =>
          (alistLookup m.exposed_functions function_name).map (fun f => f.parameters)) with
      | some parameters => .ok (parameters.map classifyArg)
      | none => .error (.noParametersFound function_name)
    else .error (.invalidIdentifier function_name)

/-! ## Checkpoint lookup -/

/-- A checkpoint summary carrying the digest of its contents (digests modelled
as naturals; the remaining summary fields are irrelevant to the lookup logic). -/
structure CheckpointSummary where
  sequence_number : Nat
  content_digest : Nat
deriving DecidableEq, Repr

/-- Checkpoint contents: the list of transaction digests of the checkpoint. -/
structure CheckpointContents where
  transactions : List Nat
deriving DecidableEq, Repr

structure Checkpoint where
  summary : CheckpointSummary
  contents : CheckpointContents
deriving DecidableEq, Repr

/-- Embeds `sui_json_rpc_types::CheckpointId`. -/
inductive CheckpointId where
  | sequenceNumber (seq : Nat)
  | digest (d : Nat)
deriving DecidableEq, Repr

/-- The store backing the checkpoint lookups: summaries keyed by sequence number
and by summary digest, contents keyed by content digest. -/
structure CheckpointStore where
  by_sequence_number : Nat → Option CheckpointSummary
  by_digest : Nat → Option CheckpointSummary
  contents_store : Nat → Option CheckpointContents

/-- Error values of the checkpoint lookups. Modelled from the spec: the store's
lookup errors are outside the provided sources; the spec distinguishes a missing
summary (`CheckpointNotFound`) from missing contents after the summary was found
(`StorageInconsistency`). -/
inductive CkptErr where
  | checkpointNotFound
  | storageInconsistency
deriving DecidableEq, Repr

/-- Modelled from the spec: `AuthorityState::get_checkpoint_summary_by_sequence_number`
fails with a not-found error when the sequence number has no summary. -/
def get_checkpoint_summary_by_sequence_number (st : CheckpointStore) (seq : Nat) :
    Except CkptErr CheckpointSummary :=
  match st.by_sequence_number seq with
  | some s => .ok s
  | none => .error .checkpointNotFound

/-- Modelled from the spec: `AuthorityState::get_checkpoint_summary_by_digest`
fails with a not-found error when the digest has no summary. -/
def get_checkpoint_summary_by_digest (st : CheckpointStore) (d : Nat) :
    Except CkptErr CheckpointSummary :=
  match st.by_digest d with
  | some s => .ok s
  | none => .error .checkpointNotFound

/-- Modelled from the spec: `AuthorityState::get_checkpoint_contents`, looked up
by content digest after a summary was already found, so a miss is a referential
break inside the store. -/
def get_checkpoint_contents_by_content_digest (st : CheckpointStore) (d : Nat) :
    Except CkptErr CheckpointContents :=
  match st.contents_store d with
  | some c => .ok c
  | none => .error .storageInconsistency

/-- The summary lookup selected by the given checkpoint identifier. -/
def summaryLookup (st : CheckpointStore) (id : CheckpointId) : Option CheckpointSummary :=
  match id with
  | .sequenceNumber seq => st.by_sequence_number seq
  | .digest d => st.by_digest d

/-- Embeds `ReadApi::get_checkpoint_internal`: resolve the summary by whichever
key was given, then resolve the contents via the content digest embedded in the
summary, and merge the two. -/
def get_checkpoint_internal (st : CheckpointStore) (id : CheckpointId) :
    Except CkptErr Checkpoint :=
  match id with
  | .sequenceNumber seq =>
    match get_checkpoint_summary_by_sequence_number st seq with
    | .error e => .error e
    | .ok summary =>
      match get_checkpoint_contents_by_content_digest st summary.content_digest with
      | .error e => .error e
      | .ok content => .ok ⟨summary, content⟩
  | .digest d =>
    match get_checkpoint_summary_by_digest st d with
    | .error e => .error e
    | .ok summary =>
      match get_checkpoint_contents_by_content_digest st summary.content_digest with
      | .error e => .error e
      | .ok content => .ok ⟨summary, content⟩

/-! ## Transaction codec (get_transaction_data_and_digest) -/

/-- Modelled from the spec: the value of a base64 alphabet character, or `none`
for a character outside the alphabet (the outer text encoding decoded by
`Base64::to_vec` of the external `fastcrypto` crate). -/
def b64Val (c : Char) : Option Nat :=
  let n := c.toNat
  if 65 ≤ n && n ≤ 90 then some (n - 65)
  else if 97 ≤ n && n ≤ 122 then some (n - 97 + 26)
  else if 48 ≤ n && n ≤ 57 then some (n - 48 + 52)
  else if n == 43 then some 62
  else if n == 47 then some 63
  else none

/-- Modelled from the spec: standard padded base64 decoding by groups of four
characters; any malformed group makes the whole decode fail. -/
def b64DecodeGroups : List Char → Option (List Nat)
  | [] => some []
  | a :: b :: c :: d :: rest =>
    match b64Val a, b64Val b with
    | some va, some vb =>
      if c.toNat == 61 then
        if d.toNat == 61 && rest.isEmpty then some [va * 4 + vb / 16] else none
      else
        match b64Val c with
        | some vc =>
          if d.toNat == 61 then
            if rest.isEmpty then some [va * 4 + vb / 16, (vb % 16) * 16 + vc / 4] else none
          else
            match b64Val d, b64DecodeGroups rest with
            | some vd, some t =>
              some ((va * 4 + vb / 16) :: ((vb % 16) * 16 + vc / 4) :: ((vc % 4) * 64 + vd) :: t)
            | _, _ => none
        | none => none
    | _, _ => none
  | _ => none

/-- Modelled from the spec: decode the outer base64 text encoding into raw bytes. -/
def base64Decode (s : String) : Option (List Nat) :=
  b64DecodeGroups s.toList

/-- Modelled from the spec: `TransactionData` (`sui_types::messages`) is outside
the provided sources; the spec describes it only as decoded transaction content.
It is modelled as a leading transaction-kind tag plus the remaining serialized
field bytes kept opaque, enough that some byte strings are structurally invalid. -/
inductive TransactionData where
  | single (rest : List Nat)
  | batch (rest : List Nat)
deriving DecidableEq, Repr

/-- Modelled from the spec: canonical (BCS) serialization of the modelled
transaction payload — the kind tag byte followed by the field bytes. -/
def bcsSerializeTx : TransactionData → List Nat
  | .single r => 0 :: r
  | .batch r => 1 :: r

/-- Modelled from the spec: binary-deserialize raw bytes into a transaction
payload; bytes not starting with a valid kind tag are structurally invalid. -/
def bcsFromBytes : List Nat → Option TransactionData
  | 0 :: r => some (.single r)
  | 1 :: r => some (.batch r)
  | _ => none

/-- Embeds `sui_types::intent::IntentVersion` (modelled from the spec: fixed
version tag). -/
inductive IntentVersion where
  | v0
deriving DecidableEq, Repr

/-- Embeds `sui_types::intent::IntentScope` (modelled from the spec: scope tag
identifying the purpose of the wrapped payload). -/
inductive IntentScope where
  | transactionData
  | transactionEffects
deriving DecidableEq, Repr

/-- Embeds `sui_types::intent::AppId` (modelled from the spec: application
identifier naming the protocol). -/
inductive AppId where
  | sui
deriving DecidableEq, Repr

structure Intent where
  version : IntentVersion
  scope : IntentScope
  app_id : AppId
deriving DecidableEq, Repr

/-- Embeds `sui_types::intent::IntentMessage` specialized to transaction data. -/
structure IntentMessage where
  intent : Intent
  value : TransactionData
deriving DecidableEq, Repr

def serIntentVersion : IntentVersion → Nat
  | .v0 => 0

def serIntentScope : IntentScope → Nat
  | .transactionData => 0
  | .transactionEffects => 1

def serAppId : AppId → Nat
  | .sui => 0

/-- Modelled from the spec: canonical serialization of the intent-wrapped
payload — the three intent tag bytes followed by the serialized payload. -/
def bcsSerializeIntentMessage (m : IntentMessage) : List Nat :=
  serIntentVersion m.intent.version :: serIntentScope m.intent.scope ::
    serAppId m.intent.app_id :: bcsSerializeTx m.value

/-- Modelled from the spec: `sha3_hash` (`sui_types::crypto`) is outside the
provided sources; the spec treats it as a fixed cryptographic hash over a
canonical serialization. It is modelled as a concrete executable compression
of the byte string so that distinct inputs can be evaluated. -/
def sha3Bytes (bs : List Nat) : Nat :=
  bs.foldl (fun acc b => (acc * 1099511628211 + b + 1) % (2 ^ 64)) 14695981039346656037

/-- The digest the source computes: `sha3_hash(&intent_msg.value)` — the hash of
the canonical serialization of the bare payload value. -/
def sha3_hash_tx (t : TransactionData) : Nat :=
  sha3Bytes (bcsSerializeTx t)

/-- The hash of the canonical serialization of the intent-wrapped payload (what
the spec says the digest is computed over). -/
def sha3_hash_intent_msg (m : IntentMessage) : Nat :=
  sha3Bytes (bcsSerializeIntentMessage m)

/-- Error values of the transaction codec. Modelled from the spec: the two
failure stages are a malformed outer text encoding and a structurally invalid
payload. -/
inductive CodecErr where
  | malformedEncoding
  | malformedPayload
deriving DecidableEq, Repr

/-- The intent constructed in the source: version `V0`, scope `TransactionData`,
app id `Sui`. -/
def suiTransactionIntent : Intent :=
  ⟨.v0, .transactionData, .sui⟩

/-- Embeds `get_transaction_data_and_digest`: base64-decode the input, BCS-decode
the raw bytes into a payload, wrap the payload in the intent envelope, and return
the payload with the digest `sha3_hash(&intent_msg.value)` computed over the bare
payload value. -/
def get_transaction_data_and_digest (tx_bytes : String) :
    Except CodecErr (TransactionData × Nat) :=
  match base64Decode tx_bytes with
  | none => .error .malformedEncoding
  | some bytes =>
    match bcsFromBytes bytes with
    | none => .error .malformedPayload
    | some tx_data =>
      let intent_msg : IntentMessage := ⟨suiTransactionIntent, tx_data⟩
      .ok (intent_msg.value, sha3_hash_tx intent_msg.value)

/-! ## Concrete fixtures and abbreviations used by the theorems -/

/-- The `limit + 1` items fetched by `get_dynamic_fields` before truncation. -/
def dfFetched (source : List DynamicFieldInfo) (cursor : Option Nat) (limit : Option Nat) :
    List DynamicFieldInfo :=
  state_get_dynamic_fields source cursor (cap_page_limit limit + 1)

/-- The `limit + 1` items fetched by `get_transactions` before truncation. -/
def txFetched (txs : List Nat) (cursor : Option Nat) (limit : Option Nat)
    (descending_order : Option Bool) : List Nat :=
  state_get_transactions txs cursor (cap_page_limit limit + 1) (descending_order.getD false)

/-- A concrete source of five dynamic fields (the spec's five-object example). -/
def dfSourceEx : List DynamicFieldInfo :=
  [⟨"a", 1⟩, ⟨"b", 2⟩, ⟨"c", 3⟩, ⟨"d", 4⟩, ⟨"e", 5⟩]

/-- A concrete normalized module: a four-parameter function `f` and a
zero-parameter function `zero`, no structs. -/
def mEx : NormalizedModule :=
  ⟨[],
   [("f", ⟨[.struct_ 2 "coin" "Coin" [], .reference .u8,
            .mutableReference (.struct_ 2 "coin" "Coin" []), .u64]⟩),
    ("zero", ⟨[]⟩)]⟩

/-- A concrete object store: object 1 is a package holding module `m`. -/
def argStoreEx : Nat → ObjectRead := fun id =>
  if id = 1 then .exists_ ⟨.package [("m", mEx)]⟩ else .notExists

/-- A concrete checkpoint store: sequence number 7 and summary digest 42 map to
a summary whose content digest 99 maps to contents. -/
def ckptStoreEx : CheckpointStore :=
  ⟨fun seq => if seq = 7 then some ⟨7, 99⟩ else none,
   fun d => if d = 42 then some ⟨7, 99⟩ else none,
   fun d => if d = 99 then some ⟨[5, 6]⟩ else none⟩

/-- A concrete checkpoint store with broken referential integrity: the summary
at sequence number 7 exists but its contents are missing. -/
def ckptStoreBroken : CheckpointStore :=
  ⟨fun seq => if seq = 7 then some ⟨7, 99⟩ else none,
   fun _ => none,
   fun _ => none⟩

/-! ## Theorems -/

/-- C1 (counterexample): at the concrete input `"AAA="` the code returns the hash
of the canonical serialization of the bare payload, which differs from the hash
of the canonical serialization of the intent-wrapped payload — so the digest is
not the hash of the intent-wrapped envelope, contradicting the claim. -/
theorem digest_not_over_intent_wrapped_envelope :
    get_transaction_data_and_digest "AAA=" =
      .ok (TransactionData.single [0], sha3_hash_tx (TransactionData.single [0]))
    ∧ sha3_hash_tx (TransactionData.single [0]) ≠
        sha3_hash_intent_msg ⟨suiTransactionIntent, TransactionData.single [0]⟩ :=
  ⟨rfl, by decide⟩

/-- C1 (amended): whenever `get_transaction_data_and_digest` succeeds, the
returned digest is the fixed hash of the canonical serialization of the bare
decoded payload (`intent_msg.value`); the intent envelope is constructed but
does not enter the hash. -/
theorem digest_is_hash_of_bare_payload (s : String) (tx : TransactionData) (d : Nat)
    (h : get_transaction_data_and_digest s = .ok (tx, d)) :
    d = sha3_hash_tx tx := by
  cases hb : base64Decode s with
  | none => simp [get_transaction_data_and_digest, hb] at h
  | some bs =>
    cases hc : bcsFromBytes bs with
    | none => simp [get_transaction_data_and_digest, hb, hc] at h
    | some t =>
      simp only [get_transaction_data_and_digest, hb, hc, Except.ok.injEq,
        Prod.mk.injEq] at h
      rw [← h.1, ← h.2]

/-- C1 (witness): the amended theorem instantiated at the concrete input `"AAA="`. -/
theorem digest_is_hash_of_bare_payload_inst :
    get_transaction_data_and_digest "AAA=" =
      .ok (TransactionData.single [0], sha3Bytes [0, 0])
    ∧ sha3Bytes [0, 0] = sha3_hash_tx (TransactionData.single [0]) :=
  ⟨rfl, digest_is_hash_of_bare_payload "AAA=" (TransactionData.single [0]) (sha3Bytes [0, 0]) rfl⟩

/-- C7: `get_transaction_data_and_digest` fails with the malformed-encoding error
exactly when base64 decoding fails, fails with the distinct malformed-payload
error exactly when the decoded bytes do not deserialize into a payload, and
succeeds otherwise. -/
theorem codec_error_partition (s : String) :
    (get_transaction_data_and_digest s = .error .malformedEncoding ↔ base64Decode s = none)
    ∧ (get_transaction_data_and_digest s = .error .malformedPayload ↔
        ∃ bs, base64Decode s = some bs ∧ bcsFromBytes bs = none)
    ∧ ((∃ r, get_transaction_data_and_digest s = .ok r) ↔
        ∃ bs tx, base64Decode s = some bs ∧ bcsFromBytes bs = some tx) := by
  cases hb : base64Decode s with
  | none => simp [get_transaction_data_and_digest, hb]
  | some bs =>
    cases hc : bcsFromBytes bs with
    | none => simp [get_transaction_data_and_digest, hb, hc]
    | some t => simp [get_transaction_data_and_digest, hb, hc]

/-- C7 (witness): the partition instantiated at the malformed input `"!"` and at
the valid input `"AAA="`. -/
theorem codec_error_partition_inst :
    base64Decode "!" = none
    ∧ get_transaction_data_and_digest "!" = .error .malformedEncoding
    ∧ (∃ r, get_transaction_data_and_digest "AAA=" = .ok r) :=
  ⟨rfl, (codec_error_partition "!").1.mpr rfl,
    (codec_error_partition "AAA=").2.2.mpr ⟨[0, 0], TransactionData.single [0], rfl, rfl⟩⟩

/-- C8: `get_transaction_data_and_digest` is deterministic — identical input
bytes yield identical results, in particular identical digests. -/
theorem codec_deterministic (s₁ s₂ : String) (h : s₁ = s₂) :
    get_transaction_data_and_digest s₁ = get_transaction_data_and_digest s₂ := by
  rw [h]

/-- C8 (witness): determinism instantiated at the concrete input `"AAA="`. -/
theorem codec_deterministic_inst :
    get_transaction_data_and_digest "AAA=" = get_transaction_data_and_digest "AAA=" :=
  codec_deterministic "AAA=" "AAA=" rfl

/-- C5: whenever `get_checkpoint_internal` succeeds (for either kind of
identifier), the summary was resolved by the given key and the returned contents
are the ones the store holds under the content digest embedded in that summary. -/
theorem checkpoint_contents_match_summary_digest (st : CheckpointStore) (id : CheckpointId)
    (ck : Checkpoint) (h : get_checkpoint_internal st id = .ok ck) :
    summaryLookup st id = some ck.summary
    ∧ st.contents_store ck.summary.content_digest = some ck.contents := by
  cases id with
  | sequenceNumber seq =>
    cases hs : st.by_sequence_number seq with
    | none =>
      simp [get_checkpoint_internal, get_checkpoint_summary_by_sequence_number, hs] at h
    | some summary =>
      cases hc : st.contents_store summary.content_digest with
      | none =>
        simp [get_checkpoint_internal, get_checkpoint_summary_by_sequence_number,
          get_checkpoint_contents_by_content_digest, hs, hc] at h
      | some content =>
        simp only [get_checkpoint_internal, get_checkpoint_summary_by_sequence_number,
          get_checkpoint_contents_by_content_digest, hs, hc, Except.ok.injEq] at h
        rw [← h]
        exact ⟨hs, hc⟩
  | digest d =>
    cases hs : st.by_digest d with
    | none =>
      simp [get_checkpoint_internal, get_checkpoint_summary_by_digest, hs] at h
    | some summary =>
      cases hc : st.contents_store summary.content_digest with
      | none =>
        simp [get_checkpoint_internal, get_checkpoint_summary_by_digest,
          get_checkpoint_contents_by_content_digest, hs, hc] at h
      | some content =>
        simp only [get_checkpoint_internal, get_checkpoint_summary_by_digest,
          get_checkpoint_contents_by_content_digest, hs, hc, Except.ok.injEq] at h
        rw [← h]
        exact ⟨hs, hc⟩

/-- C5 (witness): the consistency theorem instantiated at the concrete store,
both for a sequence-number key and for a digest key. -/
theorem checkpoint_contents_match_summary_digest_inst :
    (summaryLookup ckptStoreEx (.sequenceNumber 7) = some ⟨7, 99⟩
      ∧ ckptStoreEx.contents_store 99 = some ⟨[5, 6]⟩)
    ∧ summaryLookup ckptStoreEx (.digest 42) = some ⟨7, 99⟩ :=
  ⟨checkpoint_contents_match_summary_digest ckptStoreEx (.sequenceNumber 7)
      ⟨⟨7, 99⟩, ⟨[5, 6]⟩⟩ rfl,
    (checkpoint_contents_match_summary_digest ckptStoreEx (.digest 42)
      ⟨⟨7, 99⟩, ⟨[5, 6]⟩⟩ rfl).1⟩

/-- C6: a missing summary makes `get_checkpoint_internal` fail with the
checkpoint-not-found error, while missing contents after the summary was found
fail with the distinct storage-inconsistency error. -/
theorem checkpoint_error_distinction (st : CheckpointStore) (id : CheckpointId) :
    (summaryLookup st id = none →
      get_checkpoint_internal st id = .error .checkpointNotFound)
    ∧ (∀ s, summaryLookup st id = some s → st.contents_store s.content_digest = none →
        get_checkpoint_internal st id = .error .storageInconsistency)
    ∧ CkptErr.checkpointNotFound ≠ CkptErr.storageInconsistency := by
  refine ⟨?_, ?_, by simp⟩
  · intro hnone
    cases id with
    | sequenceNumber seq =>
      simp only [summaryLookup] at hnone
      simp [get_checkpoint_internal, get_checkpoint_summary_by_sequence_number, hnone]
    | digest d =>
      simp only [summaryLookup] at hnone
      simp [get_checkpoint_internal, get_checkpoint_summary_by_digest, hnone]
  · intro s hs hc
    cases id with
    | sequenceNumber seq =>
      simp only [summaryLookup] at hs
      simp [get_checkpoint_internal, get_checkpoint_summary_by_sequence_number,
        get_checkpoint_contents_by_content_digest, hs, hc]
    | digest d =>
      simp only [summaryLookup] at hs
      simp [get_checkpoint_internal, get_checkpoint_summary_by_digest,
        get_checkpoint_contents_by_content_digest, hs, hc]

/-- C6 (witness): the two failure modes instantiated at the broken concrete
store — a missing summary at sequence number 8 and missing contents behind the
summary at sequence number 7. -/
theorem checkpoint_error_distinction_inst :
    get_checkpoint_internal ckptStoreBroken (.sequenceNumber 8) = .error .checkpointNotFound
    ∧ get_checkpoint_internal ckptStoreBroken (.sequenceNumber 7) =
        .error .storageInconsistency :=
  ⟨(checkpoint_error_distinction ckptStoreBroken (.sequenceNumber 8)).1 rfl,
    (checkpoint_error_distinction ckptStoreBroken (.sequenceNumber 7)).2.1 ⟨7, 99⟩ rfl rfl⟩

/-- Splitting a fetched list of at most `k + 1` items around index `k`: either it
fits in `k` items, or it is the first `k` items followed by exactly one extra
item sitting at index `k`. -/
theorem overscan_split {α : Type} (fetched : List α) (k : Nat)
    (hle : fetched.length ≤ k + 1) :
    (fetched.length ≤ k → fetched.take k = fetched ∧ fetched[k]? = none)
    ∧ (k < fetched.length →
        ∃ x, fetched = fetched.take k ++ [x] ∧ fetched[k]? = some x
          ∧ (fetched.take k).length = k) := by
  constructor
  · intro h
    exact ⟨List.take_of_length_le h, List.getElem?_eq_none h⟩
  · intro h
    have hlen : fetched.length = k + 1 := Nat.le_antisymm hle h
    refine ⟨fetched[k], ?_, List.getElem?_eq_getElem h, ?_⟩
    · have h1 := List.take_concat_get fetched k h
      have h2 : fetched.take (k + 1) = fetched := List.take_of_length_le (by omega)
      rw [h2] at h1
      simpa [List.concat_eq_append] using h1.symm
    · rw [List.length_take, hlen]
      exact Nat.min_eq_left (Nat.le_succ k)

/-- C2 (counterexample): listing five dynamic fields with limit 2 yields the page
with ids `[1, 2]` but `next_cursor = some 3` — the id of the dropped third
fetched item, not the id 2 of the page's second item as the claim states. -/
theorem next_cursor_not_second_item :
    (get_dynamic_fields dfSourceEx none (some 2)).data.map (fun i => i.object_id) = [1, 2]
    ∧ (get_dynamic_fields dfSourceEx none (some 2)).next_cursor = some 3
    ∧ (3 : Nat) ≠ 2 := by
  decide

/-- C2 (amended): for both paginated listings, the source is asked for
`limit + 1` items starting after the cursor; if the fetched count is within the
limit, the page is all fetched items with no next cursor; if it exceeds the
limit, the page is the first `limit` items and `next_cursor` is the key of the
dropped extra item — the `(limit + 1)`-th fetched item, not the `limit`-th. -/
theorem pagination_overscan_next_cursor (source : List DynamicFieldInfo) (txs : List Nat)
    (cursor txCursor : Option Nat) (l : Option Nat) (d : Option Bool) :
    ((get_dynamic_fields source cursor l).data =
        (dfFetched source cursor l).take (cap_page_limit l)
    ∧ ((dfFetched source cursor l).length ≤ cap_page_limit l →
        (get_dynamic_fields source cursor l).data = dfFetched source cursor l
        ∧ (get_dynamic_fields source cursor l).next_cursor = none)
    ∧ (cap_page_limit l < (dfFetched source cursor l).length →
        ∃ extra, dfFetched source cursor l =
            (get_dynamic_fields source cursor l).data ++ [extra]
          ∧ (get_dynamic_fields source cursor l).next_cursor = some extra.object_id
          ∧ (get_dynamic_fields source cursor l).data.length = cap_page_limit l))
    ∧ ((get_transactions txs txCursor l d).data =
        (txFetched txs txCursor l d).take (cap_page_limit l)
    ∧ ((txFetched txs txCursor l d).length ≤ cap_page_limit l →
        (get_transactions txs txCursor l d).data = txFetched txs txCursor l d
        ∧ (get_transactions txs txCursor l d).next_cursor = none)
    ∧ (cap_page_limit l < (txFetched txs txCursor l d).length →
        ∃ extra, txFetched txs txCursor l d =
            (get_transactions txs txCursor l d).data ++ [extra]
          ∧ (get_transactions txs txCursor l d).next_cursor = some extra
          ∧ (get_transactions txs txCursor l d).data.length = cap_page_limit l)) := by
  have hdf : (dfFetched source cursor l).length ≤ cap_page_limit l + 1 :=
    List.length_take_le _ _
  have htx : (txFetched txs txCursor l d).length ≤ cap_page_limit l + 1 :=
    List.length_take_le _ _
  obtain ⟨hdf1, hdf2⟩ := overscan_split (dfFetched source cursor l) (cap_page_limit l) hdf
  obtain ⟨htx1, htx2⟩ := overscan_split (txFetched txs txCursor l d) (cap_page_limit l) htx
  refine ⟨⟨rfl, ?_, ?_⟩, rfl, ?_, ?_⟩
  · intro h
    obtain ⟨h1, h2⟩ := hdf1 h
    refine ⟨h1, ?_⟩
    show ((dfFetched source cursor l)[cap_page_limit l]?).map (fun i => i.object_id) = none
    rw [h2]; rfl
  · intro h
    obtain ⟨x, h1, h2, h3⟩ := hdf2 h
    refine ⟨x, ?_, ?_, ?_⟩
    · exact h1
    · show ((dfFetched source cursor l)[cap_page_limit l]?).map (fun i => i.object_id) =
        some x.object_id
      rw [h2]; rfl
    · exact h3
  · intro h
    obtain ⟨h1, h2⟩ := htx1 h
    exact ⟨h1, h2⟩
  · intro h
    obtain ⟨x, h1, h2, h3⟩ := htx2 h
    exact ⟨x, h1, h2, h3⟩

/-- C2 (witness): the amended pagination contract instantiated at the concrete
five-field source with limit 2 — three items are fetched, the dropped third item
is the extra one and its id is the next cursor. -/
theorem pagination_overscan_next_cursor_inst :
    cap_page_limit (some 2) < (dfFetched dfSourceEx none (some 2)).length
    ∧ ∃ extra, dfFetched dfSourceEx none (some 2) =
        (get_dynamic_fields dfSourceEx none (some 2)).data ++ [extra]
      ∧ (get_dynamic_fields dfSourceEx none (some 2)).next_cursor = some extra.object_id
      ∧ (get_dynamic_fields dfSourceEx none (some 2)).data.length = cap_page_limit (some 2) :=
  ⟨by decide,
    (pagination_overscan_next_cursor dfSourceEx [] none none (some 2) none).1.2.2 (by decide)⟩

/-- C9: when `descending_order` is absent the underlying query is issued with the
descending flag defaulted to false, so the page is computed from the ascending
source; the descending toggle reverses the source exactly when supplied as true. -/
theorem transactions_descending_default (txs : List Nat) (cursor : Option Nat)
    (l : Option Nat) :
    get_transactions txs cursor l none = get_transactions txs cursor l (some false)
    ∧ (get_transactions txs cursor l none).data =
        (fetchPage (fun t => t) txs cursor (cap_page_limit l + 1)).take (cap_page_limit l)
    ∧ (∀ b : Bool, (get_transactions txs cursor l (some b)).data =
        (fetchPage (fun t => t) (if b then txs.reverse else txs) cursor
          (cap_page_limit l + 1)).take (cap_page_limit l)) :=
  ⟨rfl, rfl, fun _ => rfl⟩

/-- C3: when the parameter list of a function resolves, the returned argument
modes are exactly the classification of each declared parameter in declaration
order (one mode per parameter, order preserved), and the classification is a
total function sending struct types to by-value objects, references to
immutable-reference objects, mutable references to mutable-reference objects,
and every other type to pure. -/
theorem arg_types_classification (st : Nat → ObjectRead) (package : Nat)
    (module_name function_name : String) (params : List MoveType)
    (hid : isValidIdentifier function_name = true)
    (hp : functionParameters st package module_name function_name = some params) :
    get_move_function_arg_types st package module_name function_name =
      .ok (params.map classifyArg)
    ∧ (params.map classifyArg).length = params.length
    ∧ (∀ i : Nat, (params.map classifyArg)[i]? = (params[i]?).map classifyArg)
    ∧ (∀ a m n ta, classifyArg (.struct_ a m n ta) = .object .byValue)
    ∧ (∀ t, classifyArg (.reference t) = .object .byImmutableReference)
    ∧ (∀ t, classifyArg (.mutableReference t) = .object .byMutableReference)
    ∧ (∀ t, isObjectParam t = false → classifyArg t = .pure) := by
  refine ⟨?_, by simp, fun i => (List.getElem?_map classifyArg params i), fun _ _ _ _ => rfl,
    fun _ => rfl, fun _ => rfl, ?_⟩
  · unfold functionParameters at hp
    cases hm : packageModules st package with
    | error e => rw [hm] at hp; exact absurd hp (by simp)
    | ok normalized =>
      rw [hm] at hp
      have hp' : (alistLookup normalized module_name).bind (fun m =>
          (alistLookup m.exposed_functions function_name).map
            (fun f => f.parameters)) = some params := hp
      simp [get_move_function_arg_types, hm, hid, hp']
  · intro t ht
    cases t <;> first | rfl | simp [isObjectParam] at ht

/-- C3 (witness): the classification instantiated at the concrete package:
a function with parameters struct, reference, mutable reference, u64 classifies
to by-value, by-immutable-reference, by-mutable-reference, pure. -/
theorem arg_types_classification_inst :
    isValidIdentifier "f" = true
    ∧ get_move_function_arg_types argStoreEx 1 "m" "f" =
        .ok [.object .byValue, .object .byImmutableReference,
             .object .byMutableReference, .pure] :=
  ⟨by decide,
    (arg_types_classification argStoreEx 1 "m" "f"
      [.struct_ 2 "coin" "Coin" [], .reference .u8,
       .mutableReference (.struct_ 2 "coin" "Coin" []), .u64]
      (by decide) rfl).1⟩

/-- C4: in both named-entity lookups the name is validated as an identifier
before the lookup — an invalid name yields the invalid-identifier error for any
module, a valid but absent name yields the struct-not-found or
function-not-found error, and these error values are never equal. -/
theorem identifier_error_distinction (st : Nat → ObjectRead) (package : Nat)
    (module_name name : String) (m : NormalizedModule)
    (hm : get_move_module st package module_name = .ok m) :
    (isValidIdentifier name = false →
      get_normalized_move_struct st package module_name name =
        .error (.invalidIdentifier name)
      ∧ get_normalized_move_function st package module_name name =
        .error (.invalidIdentifier name))
    ∧ (isValidIdentifier name = true → alistLookup m.structs name = none →
        get_normalized_move_struct st package module_name name =
          .error (.structNotFound name))
    ∧ (isValidIdentifier name = true → alistLookup m.exposed_functions name = none →
        get_normalized_move_function st package module_name name =
          .error (.functionNotFound name))
    ∧ (∀ s t : String, Err.invalidIdentifier s ≠ Err.structNotFound t
        ∧ Err.invalidIdentifier s ≠ Err.functionNotFound t) := by
  refine ⟨?_, ?_, ?_, fun s t => ⟨by simp, by simp⟩⟩
  · intro hbad
    constructor
    · unfold get_normalized_move_struct
      rw [hm]; simp [hbad]
    · unfold get_normalized_move_function
      rw [hm]; simp [hbad]
  · intro hok habsent
    unfold get_normalized_move_struct
    rw [hm]; simp [hok, habsent]
  · intro hok habsent
    unfold get_normalized_move_function
    rw [hm]; simp [hok, habsent]

/-- C4 (witness): at the concrete package, the invalid name `"1bad"` yields the
invalid-identifier error while the valid absent names yield the not-found
errors, and the error values differ. -/
theorem identifier_error_distinction_inst :
    get_normalized_move_struct argStoreEx 1 "m" "1bad" = .error (.invalidIdentifier "1bad")
    ∧ get_normalized_move_struct argStoreEx 1 "m" "S" = .error (.structNotFound "S")
    ∧ get_normalized_move_function argStoreEx 1 "m" "g" = .error (.functionNotFound "g")
    ∧ Err.invalidIdentifier "1bad" ≠ Err.structNotFound "S" :=
  ⟨((identifier_error_distinction argStoreEx 1 "m" "1bad" mEx rfl).1 (by decide)).1,
    (identifier_error_distinction argStoreEx 1 "m" "S" mEx rfl).2.1 (by decide) rfl,
    (identifier_error_distinction argStoreEx 1 "m" "g" mEx rfl).2.2.1 (by decide) rfl,
    ((identifier_error_distinction argStoreEx 1 "m" "1bad" mEx rfl).2.2.2 "1bad" "S").1⟩

/-- C10: `get_move_function_arg_types` succeeds exactly when the package object
exists as a package and the named module and function are both present (for a
syntactically valid function name); a missing package or a non-package object
give their own errors, a missing module and a missing function both collapse to
the same no-parameters-found error, and a present function with no declared
parameters succeeds with the empty list. -/
theorem arg_types_error_conditions (st : Nat → ObjectRead) (package : Nat)
    (module_name function_name : String)
    (hid : isValidIdentifier function_name = true) :
    ((∃ r, get_move_function_arg_types st package module_name function_name = .ok r) ↔
      ∃ mods m f, packageModules st package = .ok mods
        ∧ alistLookup mods module_name = some m
        ∧ alistLookup m.exposed_functions function_name = some f)
    ∧ (st package = .notExists ∨ st package = .deleted →
        get_move_function_arg_types st package module_name function_name =
          .error (.packageNotFound package))
    ∧ (∀ obj contents, st package = .exists_ obj → obj.data = .moveObject contents →
        get_move_function_arg_types st package module_name function_name =
          .error (.notAPackage package))
    ∧ (∀ mods, packageModules st package = .ok mods →
        alistLookup mods module_name = none →
        get_move_function_arg_types st package module_name function_name =
          .error (.noParametersFound function_name))
    ∧ (∀ mods m, packageModules st package = .ok mods →
        alistLookup mods module_name = some m →
        alistLookup m.exposed_functions function_name = none →
        get_move_function_arg_types st package module_name function_name =
          .error (.noParametersFound function_name))
    ∧ (∀ mods m f, packageModules st package = .ok mods →
        alistLookup mods module_name = some m →
        alistLookup m.exposed_functions function_name = some f → f.parameters = [] →
        get_move_function_arg_types st package module_name function_name = .ok []) := by
  refine ⟨?_, ?_, ?_, ?_, ?_, ?_⟩
  · constructor
    · rintro ⟨r, hr⟩
      cases hmods : packageModules st package with
      | error e => simp [get_move_function_arg_types, hmods] at hr
      | ok mods =>
        cases hmod : alistLookup mods module_name with
        | none => simp [get_move_function_arg_types, hmods, hid, hmod] at hr
        | some m =>
          cases hfn : alistLookup m.exposed_functions function_name with
          | none => simp [get_move_function_arg_types, hmods, hid, hmod, hfn] at hr
          | some f => exact ⟨mods, m, f, rfl, hmod, hfn⟩
    · rintro ⟨mods, m, f, hmods, hmod, hfn⟩
      exact ⟨f.parameters.map classifyArg,
        by simp [get_move_function_arg_types, hmods, hid, hmod, hfn]⟩
  · intro h
    rcases h with h | h <;> simp [get_move_function_arg_types, packageModules, h]
  · intro obj contents hobj hdata
    simp [get_move_function_arg_types, packageModules, hobj, hdata]
  · intro mods hmods hmod
    simp [get_move_function_arg_types, hmods, hid, hmod]
  · intro mods m hmods hmod hfn
    simp [get_move_function_arg_types, hmods, hid, hmod, hfn]
  · intro mods m f hmods hmod hfn hempty
    simp [get_move_function_arg_types, hmods, hid, hmod, hfn, hempty]

/-- C10 (witness): the error conditions instantiated at the concrete package:
a zero-parameter function succeeds with the empty list, a missing module and a
missing function produce the same no-parameters-found error, and a missing
package object errors. -/
theorem arg_types_error_conditions_inst :
    get_move_function_arg_types argStoreEx 1 "m" "zero" = .ok []
    ∧ get_move_function_arg_types argStoreEx 1 "nomod" "zero" =
        .error (.noParametersFound "zero")
    ∧ get_move_function_arg_types argStoreEx 1 "m" "nofun" =
        .error (.noParametersFound "nofun")
    ∧ get_move_function_arg_types argStoreEx 2 "m" "zero" =
        .error (.packageNotFound 2) :=
  ⟨(arg_types_error_conditions argStoreEx 1 "m" "zero" (by decide)).2.2.2.2.2
      [("m", mEx)] mEx ⟨[]⟩ rfl rfl rfl rfl,
    (arg_types_error_conditions argStoreEx 1 "nomod" "zero" (by decide)).2.2.2.1
      [("m", mEx)] rfl rfl,
    (arg_types_error_conditions argStoreEx 1 "m" "nofun" (by decide)).2.2.2.2.1
      [("m", mEx)] mEx rfl rfl rfl,
    (arg_types_error_conditions argStoreEx 2 "m" "zero" (by decide)).2.1 (Or.inl rfl)⟩
